import Mathlib

/-!
Verification development for the rekall procdump plugin
(volatility/plugins/windows/procdump.py): the PE image reconstructor
(PEDump.WritePEFile), the section remapper (ProcMemDump), and the target
selectors (ProcExeDump, DLLDump, ModDump).
-/

namespace Procdump

/-- Little-endian byte encoding of a natural number into a fixed number of
bytes, as produced by struct packing of unsigned little-endian formats. -/
def leBytes : Nat → Nat → List Nat
  | 0, _ => []
  | w + 1, v => v % 256 :: leBytes w (v / 256)

/-- Little-endian decoding of the four bytes of a list starting at a given
offset (positions past the end decode as zero). -/
def leDecode4 (l : List Nat) (off : Nat) : Nat :=
  l.getD off 0 +
    256 * (l.getD (off + 1) 0 +
      256 * (l.getD (off + 2) 0 + 256 * l.getD (off + 3) 0))

/-- External collaborator (spec section 6): an address space offers `zread`
(read with zero fill on fault), a plain `read`, an address-validity
predicate and virtual-to-physical translation. -/
structure AddrSpace where
  zread : Nat → Nat → List Nat
  read : Nat → Nat → List Nat
  is_valid_address : Nat → Bool
  vtop : Nat → Option Nat

/-- One decoded section record of the PE section table
(_IMAGE_SECTION_HEADER), as exposed by the external header decoder. -/
structure SectionRec where
  obj_offset : Nat
  VirtualAddress : Nat
  SizeOfRawData : Nat
  PointerToRawData : Nat
  VirtualSize : Nat

/-- The decoded headers that WritePEFile consumes: the DOS header's resolved
offset (dos_header.obj_offset), the optional header's SizeOfHeaders and the
decoded section table (nt_header.Sections). -/
structure PEImage where
  resolvedBase : Nat
  SizeOfHeaders : Nat
  Sections : List SectionRec

/-- One operation performed on the output file object. -/
inductive Op where
  | seek (pos : Nat)
  | write (data : List Nat)

/-- PEDump.WritePEFile as the sequence of seek/write operations it performs
on the output file object.  The constants 1000000, 10000000 and 100000000
are the source's 1e6, 10e6 and 100e6. -/
def WritePEFile (address_space : AddrSpace) (pe : PEImage) : List Op :=
  let image_base := pe.resolvedBase
  let data := address_space.zread image_base (min 1000000 pe.SizeOfHeaders)
  if data.isEmpty then []
  else
    Op.seek 0 :: Op.write data ::
      pe.Sections.flatMap fun sect =>
        let size_of_section := min 10000000 sect.SizeOfRawData
        let physical_offset := min 100000000 sect.PointerToRawData
        let sdata := address_space.zread (sect.VirtualAddress + image_base) size_of_section
        [Op.seek physical_offset, Op.write sdata]

/-- The effective header read length: min(1e6, SizeOfHeaders). -/
def headerReadLen (pe : PEImage) : Nat := min 1000000 pe.SizeOfHeaders

/-- The effective per-section read length: min(10e6, SizeOfRawData). -/
def sectionReadLen (sect : SectionRec) : Nat := min 10000000 sect.SizeOfRawData

/-- The effective per-section file write offset: min(100e6, PointerToRawData). -/
def sectionWriteOffset (sect : SectionRec) : Nat := min 100000000 sect.PointerToRawData

/-- An output sink: a seek position plus the sparse map of bytes written so
far (unwritten positions read back as none). -/
structure Sink where
  pos : Nat
  contents : Nat → Option Nat

/-- A freshly opened, empty output sink. -/
def freshSink : Sink := { pos := 0, contents := fun _ => none }

/-- Write a list of bytes into the sparse contents starting at a position. -/
def writeBytes (c : Nat → Option Nat) (pos : Nat) : List Nat → (Nat → Option Nat)
  | [] => c
  | b :: rest => writeBytes (fun i => if i = pos then some b else c i) (pos + 1) rest

/-- Apply one output operation to a sink. -/
def runOp (s : Sink) : Op → Sink
  | Op.seek p => { s with pos := p }
  | Op.write data =>
      { pos := s.pos + data.length, contents := writeBytes s.contents s.pos data }

/-- Apply a sequence of output operations to a sink. -/
def runOps (ops : List Op) (s : Sink) : Sink := ops.foldl runOp s

/-- Claim C1: in WritePEFile, whenever the header is nonempty the emitted
trace seeks each section to min(100e6, PointerToRawData) and reads
min(10e6, SizeOfRawData) bytes, the header read length is
min(1e6, SizeOfHeaders), and whenever a declared value exceeds its clamp
constant the value actually used equals the clamp constant and never the
declared value. -/
theorem writePEFile_clamps (address_space : AddrSpace) (pe : PEImage) (sect : SectionRec)
    (hne : (address_space.zread pe.resolvedBase (min 1000000 pe.SizeOfHeaders)).isEmpty = false) :
    WritePEFile address_space pe =
      Op.seek 0 :: Op.write (address_space.zread pe.resolvedBase (headerReadLen pe)) ::
        pe.Sections.flatMap (fun s =>
          [Op.seek (sectionWriteOffset s),
           Op.write (address_space.zread (s.VirtualAddress + pe.resolvedBase) (sectionReadLen s))])
    ∧ (10000000 < sect.SizeOfRawData →
        sectionReadLen sect = 10000000 ∧ sectionReadLen sect ≠ sect.SizeOfRawData)
    ∧ (100000000 < sect.PointerToRawData →
        sectionWriteOffset sect = 100000000 ∧ sectionWriteOffset sect ≠ sect.PointerToRawData)
    ∧ (1000000 < pe.SizeOfHeaders →
        headerReadLen pe = 1000000 ∧ headerReadLen pe ≠ pe.SizeOfHeaders) := by
  refine ⟨?_, ?_, ?_, ?_⟩
  · simp only [WritePEFile, hne, Bool.false_eq_true, if_false, headerReadLen,
      sectionReadLen, sectionWriteOffset]
  · intro h
    unfold sectionReadLen
    omega
  · intro h
    unfold sectionWriteOffset
    omega
  · intro h
    unfold headerReadLen
    omega

/-- Witness for C1 at a concrete input: a section declaring oversized
values, an address space returning a one-byte header. -/
theorem writePEFile_clamps_witness :
    sectionReadLen { obj_offset := 0, VirtualAddress := 0, SizeOfRawData := 20000000,
                     PointerToRawData := 300000000, VirtualSize := 0 } = 10000000 := by
  have h := writePEFile_clamps
    { zread := fun _ _ => [0], read := fun _ _ => [],
      is_valid_address := fun _ => false, vtop := fun _ => none }
    { resolvedBase := 0, SizeOfHeaders := 64, Sections := [] }
    { obj_offset := 0, VirtualAddress := 0, SizeOfRawData := 20000000,
      PointerToRawData := 300000000, VirtualSize := 0 }
    (by decide)
  exact (h.2.1 (by decide)).1

/-- Claim C2: if the header read yields zero bytes, WritePEFile performs no
output operations at all, so any sink is left exactly as it was and
receives zero bytes. -/
theorem writePEFile_empty_header (address_space : AddrSpace) (pe : PEImage)
    (h : address_space.zread pe.resolvedBase (min 1000000 pe.SizeOfHeaders) = []) :
    WritePEFile address_space pe = [] ∧
      ∀ s : Sink, runOps (WritePEFile address_space pe) s = s := by
  have hops : WritePEFile address_space pe = [] := by
    unfold WritePEFile
    simp [h]
  exact ⟨hops, fun s => by rw [hops]; rfl⟩

/-- Witness for C2: an address space whose reads all fail (entirely
unmapped base), checked on a concrete image. -/
theorem writePEFile_empty_header_witness :
    WritePEFile
      { zread := fun _ _ => [], read := fun _ _ => [],
        is_valid_address := fun _ => false, vtop := fun _ => none }
      { resolvedBase := 4096, SizeOfHeaders := 512,
        Sections := [{ obj_offset := 0, VirtualAddress := 4096, SizeOfRawData := 100,
                       PointerToRawData := 0, VirtualSize := 100 }] } = [] :=
  (writePEFile_empty_header _ _ rfl).1

/-- Claim C4: WritePEFile is deterministic in (address space, image base):
with any fixed external header decoder, running it twice against two
separate fresh output sinks produces identical artifacts. -/
theorem writePEFile_deterministic (decode : AddrSpace → Nat → PEImage)
    (address_space : AddrSpace) (image_base : Nat) (s1 s2 : Sink)
    (h1 : s1 = freshSink) (h2 : s2 = freshSink) :
    runOps (WritePEFile address_space (decode address_space image_base)) s1 =
      runOps (WritePEFile address_space (decode address_space image_base)) s2 := by
  rw [h1, h2]

/-- Witness for C4 at a concrete decoder, address space and base. -/
theorem writePEFile_deterministic_witness :
    runOps
      (WritePEFile
        { zread := fun o n => List.replicate n (o % 256), read := fun _ _ => [],
          is_valid_address := fun _ => true, vtop := fun _ => some 0 }
        ({ resolvedBase := 4096, SizeOfHeaders := 512, Sections := [] } : PEImage))
      freshSink =
    runOps
      (WritePEFile
        { zread := fun o n => List.replicate n (o % 256), read := fun _ _ => [],
          is_valid_address := fun _ => true, vtop := fun _ => some 0 }
        ({ resolvedBase := 4096, SizeOfHeaders := 512, Sections := [] } : PEImage))
      freshSink :=
  writePEFile_deterministic
    (fun _ _ => { resolvedBase := 4096, SizeOfHeaders := 512, Sections := [] })
    { zread := fun o n => List.replicate n (o % 256), read := fun _ _ => [],
      is_valid_address := fun _ => true, vtop := fun _ => some 0 }
    4096 freshSink freshSink rfl rfl

/-- A decoded header field item as presented by the external profile: its
absolute offset, its byte size, and the byte width of its pack format
(item.size() and struct.calcsize(item.format_string)). -/
structure HeaderItem where
  obj_offset : Nat
  size : Nat
  format_width : Nat

/-- struct.pack of an unsigned little-endian integer format of the given
byte width, applied to int(value); all uses pack in-range values. -/
def structPack (width : Nat) (value : Int) : List Nat := leBytes width value.toNat

/-- ProcMemDump.replace_header_field: splice the packed new value into the
raw section-header byte block at the field's offset. -/
def replace_header_field (sect_offset : Nat) (header : List Nat) (item : HeaderItem)
    (value : Int) : List Nat :=
  let field_size := item.size
  let start := item.obj_offset - sect_offset
  let endPos := start + field_size
  let newval := structPack item.format_width value
  header.take start ++ newval ++ header.drop endPos

theorem leBytes_length (w v : Nat) : (leBytes w v).length = w := by
  induction w generalizing v with
  | zero => rfl
  | succ n ih => simp [leBytes, ih]

theorem splice_length {α : Type} (l v : List α) (s e : Nat) (hse : s ≤ e)
    (hel : e ≤ l.length) (hv : v.length = e - s) :
    (l.take s ++ v ++ l.drop e).length = l.length := by
  simp only [List.length_append, List.length_take, List.length_drop]
  omega

theorem splice_getD_lt {α : Type} (l v : List α) (d : α) (s e k : Nat)
    (hk : k < s) (hs : s ≤ l.length) :
    (l.take s ++ v ++ l.drop e).getD k d = l.getD k d := by
  rw [List.getD_eq_getElem?_getD, List.getD_eq_getElem?_getD,
    List.getElem?_append_left (by simp [List.length_take, List.length_append]; omega),
    List.getElem?_append_left (by simp [List.length_take]; omega),
    List.getElem?_take, if_pos hk]

theorem splice_getD_at {α : Type} (l v : List α) (d : α) (s e k : Nat)
    (hs : s ≤ l.length) (hk1 : s ≤ k) (hk2 : k < s + v.length) :
    (l.take s ++ v ++ l.drop e).getD k d = v.getD (k - s) d := by
  rw [List.getD_eq_getElem?_getD, List.getD_eq_getElem?_getD,
    List.getElem?_append_left (by simp [List.length_take, List.length_append]; omega),
    List.getElem?_append_right (by simp [List.length_take]; omega)]
  have hts : (l.take s).length = s := by
    simp only [List.length_take]
    omega
  rw [hts]

theorem splice_getD_ge {α : Type} (l v : List α) (d : α) (s e k : Nat)
    (hse : s ≤ e) (hel : e ≤ l.length) (hv : v.length = e - s) (hk : e ≤ k) :
    (l.take s ++ v ++ l.drop e).getD k d = l.getD k d := by
  rw [List.getD_eq_getElem?_getD, List.getD_eq_getElem?_getD,
    List.getElem?_append_right (by simp [List.length_take, List.length_append]; omega),
    List.getElem?_drop]
  have hlen : (l.take s ++ v).length = e := by
    simp only [List.length_append, List.length_take]
    omega
  rw [hlen]
  have hek : e + (k - e) = k := by omega
  rw [hek]

/-- Claim C9: replace_header_field splices the packed new value into the
raw header byte block at the field's offset (prefix + new value + suffix):
every byte outside the replaced field's byte range is unchanged in the
result, and, provided the packed value occupies exactly the field's width,
the result has the same total length as the input block. -/
theorem replace_header_field_frame (sect_offset : Nat) (header : List Nat)
    (item : HeaderItem) (value : Int)
    (hbound : item.obj_offset - sect_offset + item.size ≤ header.length) :
    (item.format_width = item.size →
      (replace_header_field sect_offset header item value).length = header.length)
    ∧ (∀ k, k < item.obj_offset - sect_offset →
        (replace_header_field sect_offset header item value).getD k 0 = header.getD k 0)
    ∧ (item.format_width = item.size →
      ∀ k, item.obj_offset - sect_offset + item.size ≤ k →
        (replace_header_field sect_offset header item value).getD k 0 = header.getD k 0) := by
  have hw : (structPack item.format_width value).length = item.format_width := by
    simp [structPack, leBytes_length]
  refine ⟨?_, ?_, ?_⟩
  · intro heq
    unfold replace_header_field
    exact splice_length header (structPack item.format_width value)
      (item.obj_offset - sect_offset) (item.obj_offset - sect_offset + item.size)
      (by omega) hbound (by omega)
  · intro k hk
    unfold replace_header_field
    exact splice_getD_lt header (structPack item.format_width value) 0
      (item.obj_offset - sect_offset) (item.obj_offset - sect_offset + item.size) k
      hk (by omega)
  · intro heq k hk
    unfold replace_header_field
    exact splice_getD_ge header (structPack item.format_width value) 0
      (item.obj_offset - sect_offset) (item.obj_offset - sect_offset + item.size) k
      (by omega) hbound (by omega) hk

/-- Witness for C9 on a concrete block: splicing a 2-byte field at offset 1
of a 4-byte block keeps the length and the bytes outside positions 1..2. -/
theorem replace_header_field_frame_witness :
    (replace_header_field 0 [9, 9, 9, 9]
        { obj_offset := 1, size := 2, format_width := 2 } 5).length = 4
    ∧ (replace_header_field 0 [9, 9, 9, 9]
        { obj_offset := 1, size := 2, format_width := 2 } 5).getD 0 0 = 9
    ∧ (replace_header_field 0 [9, 9, 9, 9]
        { obj_offset := 1, size := 2, format_width := 2 } 5).getD 3 0 = 9 := by
  have h := replace_header_field_frame 0 [9, 9, 9, 9]
    { obj_offset := 1, size := 2, format_width := 2 } 5 (by decide)
  refine ⟨h.1 rfl, ?_, ?_⟩
  · have h0 := h.2.1 0 (by decide)
    simpa using h0
  · have h3 := h.2.2 rfl 3 (by decide)
    simpa using h3

/-- Modelled from the spec: the rounding helper used for the last section
(self.round with up set, defined outside this file) rounds a value up to
the next multiple of the alignment. -/
def roundUpTo (value align : Nat) : Nat :=
  if align = 0 then value else (value + align - 1) / align * align

/-- A placeholder section record used as a list-indexing default. -/
def dummySection : SectionRec :=
  { obj_offset := 0, VirtualAddress := 0, SizeOfRawData := 0,
    PointerToRawData := 0, VirtualSize := 0 }

/-- The sect_sizes accumulation loop of ProcMemDump.get_image: prevsect is
threaded through the section list; each section after the first contributes
the virtual-address delta from its predecessor, and after the loop the last
prevsect contributes its virtual size rounded up to the section alignment. -/
def sect_sizes_loop (sa : Nat) : Option SectionRec → List SectionRec → List Int
  | none, [] => []
  | some prevsect, [] => [(roundUpTo prevsect.VirtualSize sa : Int)]
  | none, sect :: rest => sect_sizes_loop sa (some sect) rest
  | some prevsect, sect :: rest =>
      ((sect.VirtualAddress : Int) - (prevsect.VirtualAddress : Int)) ::
        sect_sizes_loop sa (some sect) rest

/-- The sect_sizes list computed by ProcMemDump.get_image. -/
def sect_sizes (sections : List SectionRec) (sa : Nat) : List Int :=
  sect_sizes_loop sa none sections

/-- The decoded NT header fields consumed by ProcMemDump.get_image. -/
structure NTHeaderRec where
  SectionAlignment : Nat
  SizeOfOptionalHeader : Nat
  OptionalHeaderOffset : Nat
  sections : List SectionRec

/-- Modelled from the spec: the profile (pe_vtypes, outside this file)
reports 40 as the object size of _IMAGE_SECTION_HEADER. -/
def sectHeaderSize : Nat := 40

/-- Modelled from the spec: the profile presents Misc.VirtualSize of
_IMAGE_SECTION_HEADER as a 4-byte unsigned little-endian field at offset 8
of the section header. -/
def miscVirtualSizeItem (sect : SectionRec) : HeaderItem :=
  { obj_offset := sect.obj_offset + 8, size := 4, format_width := 4 }

/-- Modelled from the spec: the profile presents SizeOfRawData of
_IMAGE_SECTION_HEADER as a 4-byte unsigned little-endian field at offset 16
of the section header. -/
def sizeOfRawDataItem (sect : SectionRec) : HeaderItem :=
  { obj_offset := sect.obj_offset + 16, size := 4, format_width := 4 }

/-- Modelled from the spec: the profile presents PointerToRawData of
_IMAGE_SECTION_HEADER as a 4-byte unsigned little-endian field at offset 20
of the section header. -/
def pointerToRawDataItem (sect : SectionRec) : HeaderItem :=
  { obj_offset := sect.obj_offset + 20, size := 4, format_width := 4 }

/-- The section-header rewriting done per section in ProcMemDump.get_image:
read the raw header bytes and patch PointerToRawData := VirtualAddress,
then SizeOfRawData := size, then Misc.VirtualSize := size. -/
def rewriteSectionHeader (address_space : AddrSpace) (sect : SectionRec)
    (size : Int) : List Nat :=
  let sectheader := address_space.read sect.obj_offset sectHeaderSize
  let sectheader := replace_header_field sect.obj_offset sectheader
    (pointerToRawDataItem sect) (sect.VirtualAddress : Int)
  let sectheader := replace_header_field sect.obj_offset sectheader
    (sizeOfRawDataItem sect) size
  let sectheader := replace_header_field sect.obj_offset sectheader
    (miscVirtualSizeItem sect) size
  sectheader

/-- The (file position, rewritten header bytes) pairs yielded by
ProcMemDump.get_image for the section table. -/
def get_image_section_headers (address_space : AddrSpace) (nt : NTHeaderRec)
    (base_addr : Nat) : List (Nat × List Nat) :=
  nt.sections.enum.map fun p =>
    (nt.SizeOfOptionalHeader + (nt.OptionalHeaderOffset - base_addr) + p.1 * sectHeaderSize,
     rewriteSectionHeader address_space p.2
       ((sect_sizes nt.sections nt.SectionAlignment).getD p.1 0))

theorem sect_sizes_loop_delta (sa : Nat) (l : List SectionRec) :
    ∀ (p : SectionRec) (i : Nat), i < l.length →
      (sect_sizes_loop sa (some p) l).getD i 0 =
        ((l.getD i dummySection).VirtualAddress : Int) -
          (((p :: l).getD i dummySection).VirtualAddress : Int) := by
  induction l with
  | nil => intro p i hi; simp at hi
  | cons hd tl ih =>
      intro p i hi
      cases i with
      | zero => simp [sect_sizes_loop]
      | succ j =>
          have hj : j < tl.length := by simpa using hi
          simpa [sect_sizes_loop] using ih hd j hj

theorem sect_sizes_loop_last (sa : Nat) (l : List SectionRec) :
    ∀ p : SectionRec,
      (sect_sizes_loop sa (some p) l).getD l.length 0 =
        (roundUpTo (((p :: l).getD l.length dummySection).VirtualSize) sa : Int) := by
  induction l with
  | nil => intro p; simp [sect_sizes_loop]
  | cons hd tl ih => intro p; simpa [sect_sizes_loop] using ih hd

theorem leBytes_four (x : Nat) :
    leBytes 4 x =
      [x % 256, x / 256 % 256, x / 256 / 256 % 256, x / 256 / 256 / 256 % 256] := rfl

theorem leDecode4_leBytes (x : Nat) (hx : x < 4294967296) :
    leDecode4 (leBytes 4 x) 0 = x := by
  rw [leBytes_four]
  simp [leDecode4, List.getD]
  omega

theorem triple_splice_decode (h0 P S V : List Nat) {h1 h2 h3 : List Nat}
    (hlen : h0.length = 40) (hPl : P.length = 4) (hSl : S.length = 4) (hVl : V.length = 4)
    (e1 : h1 = h0.take 20 ++ P ++ h0.drop 24)
    (e2 : h2 = h1.take 16 ++ S ++ h1.drop 20)
    (e3 : h3 = h2.take 8 ++ V ++ h2.drop 12) :
    leDecode4 h3 20 = leDecode4 P 0 ∧ leDecode4 h3 16 = leDecode4 S 0 ∧
      leDecode4 h3 8 = leDecode4 V 0 := by
  have l1 : h1.length = 40 := by
    rw [e1, splice_length h0 P 20 24 (by omega) (by omega) (by omega), hlen]
  have l2 : h2.length = 40 := by
    rw [e2, splice_length h1 S 16 20 (by omega) (by omega) (by omega), l1]
  refine ⟨?_, ?_, ?_⟩
  · unfold leDecode4
    rw [e3,
      splice_getD_ge h2 V 0 8 12 20 (by omega) (by omega) (by omega) (by omega),
      splice_getD_ge h2 V 0 8 12 (20 + 1) (by omega) (by omega) (by omega) (by omega),
      splice_getD_ge h2 V 0 8 12 (20 + 2) (by omega) (by omega) (by omega) (by omega),
      splice_getD_ge h2 V 0 8 12 (20 + 3) (by omega) (by omega) (by omega) (by omega),
      e2,
      splice_getD_ge h1 S 0 16 20 20 (by omega) (by omega) (by omega) (by omega),
      splice_getD_ge h1 S 0 16 20 (20 + 1) (by omega) (by omega) (by omega) (by omega),
      splice_getD_ge h1 S 0 16 20 (20 + 2) (by omega) (by omega) (by omega) (by omega),
      splice_getD_ge h1 S 0 16 20 (20 + 3) (by omega) (by omega) (by omega) (by omega),
      e1,
      splice_getD_at h0 P 0 20 24 20 (by omega) (by omega) (by omega),
      splice_getD_at h0 P 0 20 24 (20 + 1) (by omega) (by omega) (by omega),
      splice_getD_at h0 P 0 20 24 (20 + 2) (by omega) (by omega) (by omega),
      splice_getD_at h0 P 0 20 24 (20 + 3) (by omega) (by omega) (by omega)]
  · unfold leDecode4
    rw [e3,
      splice_getD_ge h2 V 0 8 12 16 (by omega) (by omega) (by omega) (by omega),
      splice_getD_ge h2 V 0 8 12 (16 + 1) (by omega) (by omega) (by omega) (by omega),
      splice_getD_ge h2 V 0 8 12 (16 + 2) (by omega) (by omega) (by omega) (by omega),
      splice_getD_ge h2 V 0 8 12 (16 + 3) (by omega) (by omega) (by omega) (by omega),
      e2,
      splice_getD_at h1 S 0 16 20 16 (by omega) (by omega) (by omega),
      splice_getD_at h1 S 0 16 20 (16 + 1) (by omega) (by omega) (by omega),
      splice_getD_at h1 S 0 16 20 (16 + 2) (by omega) (by omega) (by omega),
      splice_getD_at h1 S 0 16 20 (16 + 3) (by omega) (by omega) (by omega)]
  · unfold leDecode4
    rw [e3,
      splice_getD_at h2 V 0 8 12 8 (by omega) (by omega) (by omega),
      splice_getD_at h2 V 0 8 12 (8 + 1) (by omega) (by omega) (by omega),
      splice_getD_at h2 V 0 8 12 (8 + 2) (by omega) (by omega) (by omega),
      splice_getD_at h2 V 0 8 12 (8 + 3) (by omega) (by omega) (by omega)]

theorem rewriteSectionHeader_fields (address_space : AddrSpace) (sect : SectionRec)
    (size : Int)
    (hlen : (address_space.read sect.obj_offset sectHeaderSize).length = 40)
    (hva : sect.VirtualAddress < 4294967296)
    (hnn : 0 ≤ size) (hlt : size < 4294967296) :
    leDecode4 (rewriteSectionHeader address_space sect size) 20 = sect.VirtualAddress
    ∧ leDecode4 (rewriteSectionHeader address_space sect size) 16 = size.toNat
    ∧ leDecode4 (rewriteSectionHeader address_space sect size) 8 = size.toNat := by
  have hr : rewriteSectionHeader address_space sect size =
      ((let h0 := address_space.read sect.obj_offset sectHeaderSize
        let h1 := h0.take 20 ++ structPack 4 (sect.VirtualAddress : Int) ++ h0.drop 24
        let h2 := h1.take 16 ++ structPack 4 size ++ h1.drop 20
        h2.take 8 ++ structPack 4 size ++ h2.drop 12) : List Nat) := by
    simp only [rewriteSectionHeader, replace_header_field, pointerToRawDataItem,
      sizeOfRawDataItem, miscVirtualSizeItem, Nat.add_sub_cancel_left]
  have hPl : (structPack 4 (sect.VirtualAddress : Int)).length = 4 := by
    simp [structPack, leBytes_length]
  have hSl : (structPack 4 size).length = 4 := by
    simp [structPack, leBytes_length]
  obtain ⟨d1, d2, d3⟩ := triple_splice_decode
    (address_space.read sect.obj_offset sectHeaderSize)
    (structPack 4 (sect.VirtualAddress : Int)) (structPack 4 size) (structPack 4 size)
    hlen hPl hSl hSl rfl rfl rfl
  rw [hr]
  have hdP : leDecode4 (structPack 4 (sect.VirtualAddress : Int)) 0 = sect.VirtualAddress := by
    rw [structPack, leDecode4_leBytes]
    · simp
    · simpa using hva
  have hdS : leDecode4 (structPack 4 size) 0 = size.toNat := by
    rw [structPack, leDecode4_leBytes]
    omega
  exact ⟨by rw [d1, hdP], by rw [d2, hdS], by rw [d3, hdS]⟩

theorem sect_sizes_getD (sections : List SectionRec) (sa i : Nat)
    (h : i + 1 < sections.length) :
    (sect_sizes sections sa).getD i 0 =
      ((sections.getD (i + 1) dummySection).VirtualAddress : Int) -
        ((sections.getD i dummySection).VirtualAddress : Int) := by
  cases sections with
  | nil => simp at h
  | cons s0 tl =>
      have hi : i < tl.length := by simpa using h
      simpa [sect_sizes, sect_sizes_loop] using sect_sizes_loop_delta sa tl s0 i hi

theorem sect_sizes_getD_last (sections : List SectionRec) (sa : Nat)
    (h : sections ≠ []) :
    (sect_sizes sections sa).getD (sections.length - 1) 0 =
      (roundUpTo ((sections.getD (sections.length - 1) dummySection).VirtualSize) sa : Int) := by
  cases sections with
  | nil => exact absurd rfl h
  | cons s0 tl =>
      simpa [sect_sizes, sect_sizes_loop] using sect_sizes_loop_last sa tl s0

theorem get_image_getD (address_space : AddrSpace) (nt : NTHeaderRec)
    (base_addr i : Nat) (h : i < nt.sections.length) :
    (get_image_section_headers address_space nt base_addr).getD i (0, []) =
      (nt.SizeOfOptionalHeader + (nt.OptionalHeaderOffset - base_addr) + i * sectHeaderSize,
       rewriteSectionHeader address_space (nt.sections.getD i dummySection)
         ((sect_sizes nt.sections nt.SectionAlignment).getD i 0)) := by
  have hsome : nt.sections[i]? = some (nt.sections.getD i dummySection) := by
    simp [List.getD_eq_getElem?_getD, List.getElem?_eq_getElem h]
  simp only [get_image_section_headers]
  rw [List.getD_eq_getElem?_getD, List.getElem?_map, List.getElem?_enum, hsome]
  simp

/-- Claim C3: in the remap variant (get_image), for every section except the
last the rewritten section header has PointerToRawData equal to that
section's original VirtualAddress, and SizeOfRawData and Misc.VirtualSize
both equal to the virtual-address delta to the next section; for the last
section the recomputed size equals its declared virtual size rounded up to
the NT header's SectionAlignment. -/
theorem get_image_remap (address_space : AddrSpace) (nt : NTHeaderRec) (base_addr : Nat) :
    (∀ i, i + 1 < nt.sections.length →
      (address_space.read (nt.sections.getD i dummySection).obj_offset sectHeaderSize).length = 40 →
      (nt.sections.getD i dummySection).VirtualAddress < 4294967296 →
      (nt.sections.getD i dummySection).VirtualAddress ≤
        (nt.sections.getD (i + 1) dummySection).VirtualAddress →
      (nt.sections.getD (i + 1) dummySection).VirtualAddress -
        (nt.sections.getD i dummySection).VirtualAddress < 4294967296 →
      (sect_sizes nt.sections nt.SectionAlignment).getD i 0 =
          ((nt.sections.getD (i + 1) dummySection).VirtualAddress : Int) -
            ((nt.sections.getD i dummySection).VirtualAddress : Int)
      ∧ leDecode4 ((get_image_section_headers address_space nt base_addr).getD i (0, [])).2 20 =
          (nt.sections.getD i dummySection).VirtualAddress
      ∧ leDecode4 ((get_image_section_headers address_space nt base_addr).getD i (0, [])).2 16 =
          (nt.sections.getD (i + 1) dummySection).VirtualAddress -
            (nt.sections.getD i dummySection).VirtualAddress
      ∧ leDecode4 ((get_image_section_headers address_space nt base_addr).getD i (0, [])).2 8 =
          (nt.sections.getD (i + 1) dummySection).VirtualAddress -
            (nt.sections.getD i dummySection).VirtualAddress)
    ∧ (nt.sections ≠ [] →
        (sect_sizes nt.sections nt.SectionAlignment).getD (nt.sections.length - 1) 0 =
          (roundUpTo ((nt.sections.getD (nt.sections.length - 1) dummySection).VirtualSize)
            nt.SectionAlignment : Int)) := by
  constructor
  · intro i hi hread hva hmono hdelta
    have hd := sect_sizes_getD nt.sections nt.SectionAlignment i hi
    have hgi := get_image_getD address_space nt base_addr i (by omega)
    have hnn : 0 ≤ (sect_sizes nt.sections nt.SectionAlignment).getD i 0 := by
      rw [hd]; omega
    have hlt : (sect_sizes nt.sections nt.SectionAlignment).getD i 0 < 4294967296 := by
      rw [hd]; omega
    have hf := rewriteSectionHeader_fields address_space (nt.sections.getD i dummySection)
      ((sect_sizes nt.sections nt.SectionAlignment).getD i 0) hread hva hnn hlt
    have htn : ((sect_sizes nt.sections nt.SectionAlignment).getD i 0).toNat =
        (nt.sections.getD (i + 1) dummySection).VirtualAddress -
          (nt.sections.getD i dummySection).VirtualAddress := by
      rw [hd, Int.toNat_sub]
    refine ⟨hd, ?_, ?_, ?_⟩
    · rw [hgi]
      exact hf.1
    · rw [hgi]
      have h16 := hf.2.1
      rw [htn] at h16
      exact h16
    · rw [hgi]
      have h8 := hf.2.2
      rw [htn] at h8
      exact h8
  · intro h
    exact sect_sizes_getD_last nt.sections nt.SectionAlignment h

/-- Witness for C3 at a concrete two-section image: the rewritten first
header decodes PointerToRawData to the original VirtualAddress 4096, and
the last recomputed size is the virtual size rounded up to the alignment. -/
theorem get_image_remap_witness :
    leDecode4
      ((get_image_section_headers
          { zread := fun _ _ => [], read := fun _ n => List.replicate n 0,
            is_valid_address := fun _ => false, vtop := fun _ => none }
          { SectionAlignment := 4096, SizeOfOptionalHeader := 224, OptionalHeaderOffset := 24,
            sections :=
              [{ obj_offset := 512, VirtualAddress := 4096, SizeOfRawData := 1024,
                 PointerToRawData := 1024, VirtualSize := 100 },
               { obj_offset := 552, VirtualAddress := 12288, SizeOfRawData := 512,
                 PointerToRawData := 2048, VirtualSize := 5000 }] }
          0).getD 0 (0, [])).2 20 = 4096
    ∧ (sect_sizes
        [{ obj_offset := 512, VirtualAddress := 4096, SizeOfRawData := 1024,
           PointerToRawData := 1024, VirtualSize := 100 },
         { obj_offset := 552, VirtualAddress := 12288, SizeOfRawData := 512,
           PointerToRawData := 2048, VirtualSize := 5000 }] 4096).getD 1 0 =
      (roundUpTo 5000 4096 : Int) := by
  have h := get_image_remap
    { zread := fun _ _ => [], read := fun _ n => List.replicate n 0,
      is_valid_address := fun _ => false, vtop := fun _ => none }
    { SectionAlignment := 4096, SizeOfOptionalHeader := 224, OptionalHeaderOffset := 24,
      sections :=
        [{ obj_offset := 512, VirtualAddress := 4096, SizeOfRawData := 1024,
           PointerToRawData := 1024, VirtualSize := 100 },
         { obj_offset := 552, VirtualAddress := 12288, SizeOfRawData := 512,
           PointerToRawData := 2048, VirtualSize := 5000 }] }
    0
  have h1 := h.1 0 (by decide) (by simp [sectHeaderSize]) (by decide) (by decide) (by decide)
  have h2 := h.2 (by simp)
  exact ⟨h1.2.1, h2⟩

/-- The attributes of a ModDump instance that find_space reads and writes:
the process-filter attribute its guard tests (owned by the framework's
process-filter base class, outside this file; None when no explicit
process list was requested), the address_spaces cache attribute (class
default None), the kernel address space, and the process address spaces
that filter_processes enumerates, in order. -/
structure ModDumpState where
  processes : Option (List Nat)
  address_spaces : Option (List AddrSpace)
  kernel_address_space : AddrSpace
  proc_spaces : List AddrSpace

/-- ModDump.find_space: if the processes attribute is None, rebuild the
address_spaces list as the kernel address space followed by each filtered
process's address space; then scan address_spaces in order and return the
first address space for which image_base is valid.  The outer Option of
the result is none when the scan would iterate a missing (None)
address_spaces list; the inner Option is none when no candidate is valid. -/
def find_space (st : ModDumpState) (image_base : Nat) :
    ModDumpState × Option (Option AddrSpace) :=
  let st1 :=
    if st.processes = none then
      { st with address_spaces := some (st.kernel_address_space :: st.proc_spaces) }
    else st
  match st1.address_spaces with
  | none => (st1, none)
  | some l =>
      (st1, some (l.find? fun address_space => address_space.is_valid_address image_base))

/-- Claim C5: find_space searches the candidate address-space list in order
(kernel address space first, then each process's address space in
enumeration order) and returns the first one for which
is_valid_address(image_base) holds; for candidates [K, P1, P2] where only
P2 reports the base valid it returns P2, and it returns no space when no
candidate is valid. -/
theorem find_space_first_valid (st : ModDumpState) (image_base : Nat)
    (hp : st.processes = none) :
    (find_space st image_base).2 =
      some ((st.kernel_address_space :: st.proc_spaces).find?
        (fun address_space => address_space.is_valid_address image_base))
    ∧ (∀ K P1 P2 : AddrSpace, st.kernel_address_space = K → st.proc_spaces = [P1, P2] →
        K.is_valid_address image_base = false → P1.is_valid_address image_base = false →
        P2.is_valid_address image_base = true →
        (find_space st image_base).2 = some (some P2))
    ∧ ((∀ a ∈ st.kernel_address_space :: st.proc_spaces,
          a.is_valid_address image_base = false) →
        (find_space st image_base).2 = some none) := by
  have hmain : (find_space st image_base).2 =
      some ((st.kernel_address_space :: st.proc_spaces).find?
        (fun address_space => address_space.is_valid_address image_base)) := by
    simp [find_space, hp]
  refine ⟨hmain, ?_, ?_⟩
  · intro K P1 P2 hK hPs h1 h2 h3
    rw [hmain, hK, hPs]
    simp [List.find?, h1, h2, h3]
  · intro hall
    rw [hmain]
    rw [List.find?_eq_none.2 (by intro a ha; simp [hall a ha])]

/-- Witness for C5 on concrete address spaces: only the second process
space reports the base valid, so find_space selects it. -/
theorem find_space_first_valid_witness :
    (find_space
      { processes := none, address_spaces := none,
        kernel_address_space := { zread := fun _ _ => [], read := fun _ _ => [],
                                  is_valid_address := fun _ => false, vtop := fun _ => none },
        proc_spaces :=
          [{ zread := fun _ _ => [], read := fun _ _ => [],
             is_valid_address := fun a => a == 1, vtop := fun _ => none },
           { zread := fun _ _ => [], read := fun _ _ => [],
             is_valid_address := fun a => a == 4096, vtop := fun _ => none }] }
      4096).2 =
      some (some { zread := fun _ _ => [], read := fun _ _ => [],
                   is_valid_address := fun a => a == 4096, vtop := fun _ => none }) :=
  ((find_space_first_valid _ 4096 rfl).2.1
    { zread := fun _ _ => [], read := fun _ _ => [],
      is_valid_address := fun _ => false, vtop := fun _ => none }
    { zread := fun _ _ => [], read := fun _ _ => [],
      is_valid_address := fun a => a == 1, vtop := fun _ => none }
    { zread := fun _ _ => [], read := fun _ _ => [],
      is_valid_address := fun a => a == 4096, vtop := fun _ => none }
    rfl rfl rfl rfl rfl)

/-- Claim C6 evaluated on the code: the rebuild guard tests the processes
attribute, not the address_spaces cache, so a call made while processes is
still None rebuilds and overwrites an already-built address_spaces list.
Starting from a state whose cache already holds a space valid for the
base, the call returns no space (the cached candidate was discarded) and
leaves the cache rebuilt from the kernel address space alone. -/
theorem find_space_rebuilds_cache :
    (find_space
      { processes := none,
        address_spaces :=
          some [{ zread := fun _ _ => [], read := fun _ _ => [],
                  is_valid_address := fun _ => true, vtop := fun _ => none }],
        kernel_address_space := { zread := fun _ _ => [], read := fun _ _ => [],
                                  is_valid_address := fun _ => false, vtop := fun _ => none },
        proc_spaces := [] } 0).2 = some none
    ∧ (find_space
      { processes := none,
        address_spaces :=
          some [{ zread := fun _ _ => [], read := fun _ _ => [],
                  is_valid_address := fun _ => true, vtop := fun _ => none }],
        kernel_address_space := { zread := fun _ _ => [], read := fun _ _ => [],
                                  is_valid_address := fun _ => false, vtop := fun _ => none },
        proc_spaces := [] } 0).1.address_spaces =
      some [{ zread := fun _ _ => [], read := fun _ _ => [],
              is_valid_address := fun _ => false, vtop := fun _ => none }] := by
  constructor
  · rfl
  · rfl

/-- A loaded-module record as enumerated by get_load_modules. -/
structure ModuleRec where
  BaseDllName : String
  DllBase : Nat

/-- A process record as consumed by DLLDump.render: pid, image name, the
record's own offset, the process address space (None when unavailable) and
its loaded modules in enumeration order. -/
structure DTask where
  UniqueProcessId : Nat
  ImageFileName : String
  obj_offset : Nat
  task_as : Option AddrSpace
  modules : List ModuleRec

/-- The errors the dump plugins can raise. -/
inductive PyErr where
  | pluginError
  | nameError
  | attributeError
deriving DecidableEq

/-- The visible per-module effects of DLLDump.render: the Dumping
diagnostic line for a module, and the creation of its dump file (open plus
WritePEFile into it). -/
inductive DEvent where
  | dumpingLine (moduleName : String) (pid : Nat) (base : Nat)
  | dumpedFile (moduleName : String) (pid : Nat) (base : Nat)
deriving DecidableEq

/-- The module name an event belongs to. -/
def deventModule : DEvent → String
  | DEvent.dumpingLine n _ _ => n
  | DEvent.dumpedFile n _ _ => n

/-- Python truthiness of the vtop result: None and 0 are both falsy. -/
def truthyOffset : Option Nat → Bool
  | none => false
  | some n => n != 0

/-- ProcExeDump.check_dump_dir: raise a PluginError unless the dump
directory is set, nonempty and a directory; os.path.isdir is the external
predicate isdir. -/
def check_dump_dir (dump_dir : Option String) (isdir : String → Bool) : Option PyErr :=
  match dump_dir with
  | none => some PyErr.pluginError
  | some d =>
      if d = "" then some PyErr.pluginError
      else if isdir d then none else some PyErr.pluginError

/-- The per-module loop of DLLDump.render for one task: compute the
process offset via task_as.vtop; when it is truthy, silently skip modules
failing the regex and emit the Dumping line plus the dump for matching
ones; when it is falsy, the else branch's diagnostic formatting references
the undefined name proc, raising NameError before writing anything; a
missing task address space raises AttributeError at task_as.vtop. -/
def dlldump_modules (nameMatches : String → Bool) (task : DTask) :
    List ModuleRec → List DEvent × Option PyErr
  | [] => ([], none)
  | m :: rest =>
    match task.task_as with
    | none => ([], some PyErr.attributeError)
    | some tas =>
        if truthyOffset (tas.vtop task.obj_offset) then
          if nameMatches m.BaseDllName then
            let r := dlldump_modules nameMatches task rest
            (DEvent.dumpingLine m.BaseDllName task.UniqueProcessId m.DllBase ::
               DEvent.dumpedFile m.BaseDllName task.UniqueProcessId m.DllBase :: r.1, r.2)
          else
            dlldump_modules nameMatches task rest
        else ([], some PyErr.nameError)

/-- The task loop of DLLDump.render: events written before an error remain
emitted; an error aborts the run. -/
def dlldump_tasks (nameMatches : String → Bool) : List DTask → List DEvent × Option PyErr
  | [] => ([], none)
  | t :: rest =>
      match dlldump_modules nameMatches t t.modules with
      | (evs, some e) => (evs, some e)
      | (evs, none) =>
          (evs ++ (dlldump_tasks nameMatches rest).1, (dlldump_tasks nameMatches rest).2)

/-- DLLDump.render: check the dump directory first, then loop over the
filtered tasks and their modules. -/
def dlldump_render (nameMatches : String → Bool) (dump_dir : Option String)
    (isdir : String → Bool) (tasks : List DTask) : List DEvent × Option PyErr :=
  match check_dump_dir dump_dir isdir with
  | some e => ([], some e)
  | none => dlldump_tasks nameMatches tasks

theorem dlldump_modules_matches (nameMatches : String → Bool) (task : DTask) :
    ∀ ms : List ModuleRec, ∀ e ∈ (dlldump_modules nameMatches task ms).1,
      nameMatches (deventModule e) = true := by
  intro ms
  induction ms with
  | nil => intro e he; simp [dlldump_modules] at he
  | cons m rest ih =>
      intro e he
      unfold dlldump_modules at he
      split at he
      · simp at he
      · split at he
        · split at he
          · rename_i hm
            simp only [List.mem_cons] at he
            rcases he with h | h | h
            · rw [h]; exact hm
            · rw [h]; exact hm
            · exact ih e h
          · exact ih e he
        · simp at he

theorem dlldump_tasks_matches (nameMatches : String → Bool) :
    ∀ ts : List DTask, ∀ e ∈ (dlldump_tasks nameMatches ts).1,
      nameMatches (deventModule e) = true := by
  intro ts
  induction ts with
  | nil => intro e he; simp [dlldump_tasks] at he
  | cons t rest ih =>
      intro e he
      unfold dlldump_tasks at he
      split at he
      · rename_i evs er hsplit
        exact dlldump_modules_matches nameMatches t t.modules e (by rw [hsplit]; exact he)
      · rename_i evs hsplit
        simp only [List.mem_append] at he
        rcases he with h | h
        · exact dlldump_modules_matches nameMatches t t.modules e (by rw [hsplit]; exact h)
        · exact ih e h

/-- Claim C7: in DLLDump, a module whose name fails the caller-supplied
pattern produces no output file and no diagnostic line: every event the
run emits belongs to a module whose name matches the pattern, so only
matching modules are reconstructed. -/
theorem dlldump_filtered_silent (nameMatches : String → Bool) (dump_dir : Option String)
    (isdir : String → Bool) (tasks : List DTask) :
    ∀ e ∈ (dlldump_render nameMatches dump_dir isdir tasks).1,
      nameMatches (deventModule e) = true := by
  intro e he
  unfold dlldump_render at he
  split at he
  · simp at he
  · exact dlldump_tasks_matches nameMatches tasks e he

/-- Witness for C7: three modules, only evil.dll matches, translation
succeeds; the dump event for evil.dll is emitted and its name matches. -/
theorem dlldump_filtered_silent_witness :
    (fun s => s == "evil.dll") (deventModule (DEvent.dumpedFile "evil.dll" 4 4096)) = true :=
  dlldump_filtered_silent (fun s => s == "evil.dll") (some "/dumps") (fun _ => true)
    [{ UniqueProcessId := 4, ImageFileName := "app.exe", obj_offset := 100,
       task_as := some { zread := fun _ _ => [], read := fun _ _ => [],
                         is_valid_address := fun _ => false, vtop := fun _ => some 1 },
       modules := [{ BaseDllName := "kernel32.dll", DllBase := 1 },
                   { BaseDllName := "ntdll.dll", DllBase := 2 },
                   { BaseDllName := "evil.dll", DllBase := 4096 }] }]
    (DEvent.dumpedFile "evil.dll" 4 4096) (by decide)

/-- A process record as consumed by ProcExeDump.render: pid, image name,
the process address space (None when unavailable) and the Peb's
ImageBaseAddress. -/
structure PTask where
  UniqueProcessId : Nat
  ImageFileName : String
  task_address_space : Option AddrSpace
  peb_image_base : Nat

/-- The visible effects of ProcExeDump.render: the skip diagnostic for a
missing address space, a reconstruction into the caller-supplied fd, or a
reconstruction into a fresh per-process file. -/
inductive PEvent where
  | asSkip
  | fdDump (pid : Nat)
  | fileDump (pid : Nat)
deriving DecidableEq

/-- ProcExeDump.render: for each filtered task, write the skip diagnostic
and continue when the process address space is unavailable; with a
caller-supplied fd, reconstruct into it; otherwise check the dump
directory (raising PluginError on a bad one) and reconstruct into a fresh
per-process file. -/
def procexedump_render (fd : Option Nat) (dump_dir : Option String)
    (isdir : String → Bool) : List PTask → List PEvent × Option PyErr
  | [] => ([], none)
  | t :: rest =>
      match t.task_address_space with
      | none =>
          (PEvent.asSkip :: (procexedump_render fd dump_dir isdir rest).1,
           (procexedump_render fd dump_dir isdir rest).2)
      | some _ =>
          match fd with
          | some _ =>
              (PEvent.fdDump t.UniqueProcessId ::
                 (procexedump_render fd dump_dir isdir rest).1,
               (procexedump_render fd dump_dir isdir rest).2)
          | none =>
              match check_dump_dir dump_dir isdir with
              | some e => ([], some e)
              | none =>
                  (PEvent.fileDump t.UniqueProcessId ::
                     (procexedump_render fd dump_dir isdir rest).1,
                   (procexedump_render fd dump_dir isdir rest).2)

theorem check_dump_dir_bad (dump_dir : Option String) (isdir : String → Bool)
    (h : check_dump_dir dump_dir isdir ≠ none) :
    check_dump_dir dump_dir isdir = some PyErr.pluginError := by
  unfold check_dump_dir at h ⊢
  cases dump_dir with
  | none => rfl
  | some d =>
      by_cases h1 : d = ""
      · simp [h1]
      · by_cases h2 : isdir d
        · simp [h1, h2] at h
        · simp [h1, h2]

/-- Counterexample to claim C8 as stated: with a caller-supplied fd, the
dump directory is never checked; here the dump directory is unset yet the
run completes without error and writes a reconstruction for the target. -/
theorem procexedump_render_fd_ignores_dump_dir :
    (procexedump_render (some 0) none (fun _ => false)
      [{ UniqueProcessId := 7, ImageFileName := "app.exe",
         task_address_space := some { zread := fun _ _ => [], read := fun _ _ => [],
                                      is_valid_address := fun _ => false,
                                      vtop := fun _ => none },
         peb_image_base := 4096 }]).2 = none
    ∧ PEvent.fdDump 7 ∈
        (procexedump_render (some 0) none (fun _ => false)
          [{ UniqueProcessId := 7, ImageFileName := "app.exe",
             task_address_space := some { zread := fun _ _ => [], read := fun _ _ => [],
                                          is_valid_address := fun _ => false,
                                          vtop := fun _ => none },
             peb_image_base := 4096 }]).1 := by
  constructor
  · rfl
  · simp [procexedump_render]

/-- Claim C8 (amended): when no caller-supplied output fd is given, a
missing or non-directory dump destination means no target is ever
reconstructed or written — targets can only contribute skip diagnostics —
and the run aborts with the fatal configuration error at the first target
whose address space is available. -/
theorem procexedump_render_bad_dir (dump_dir : Option String) (isdir : String → Bool)
    (tasks : List PTask) (hbad : check_dump_dir dump_dir isdir ≠ none) :
    (∀ e ∈ (procexedump_render none dump_dir isdir tasks).1, e = PEvent.asSkip)
    ∧ ((∃ t ∈ tasks, t.task_address_space ≠ none) →
        (procexedump_render none dump_dir isdir tasks).2 = some PyErr.pluginError) := by
  induction tasks with
  | nil =>
      constructor
      · intro e he; simp [procexedump_render] at he
      · intro h
        rcases h with ⟨t, ht, _⟩
        simp at ht
  | cons t rest ih =>
      cases hai : t.task_address_space with
      | none =>
          constructor
          · intro e he
            simp only [procexedump_render, hai, List.mem_cons] at he
            rcases he with h | h
            · exact h
            · exact ih.1 e h
          · intro h
            rcases h with ⟨u, hu, hune⟩
            simp only [List.mem_cons] at hu
            rcases hu with rfl | hu
            · exact absurd hai hune
            · simp only [procexedump_render, hai]
              exact ih.2 ⟨u, hu, hune⟩
      | some a =>
          have hcd := check_dump_dir_bad dump_dir isdir hbad
          constructor
          · intro e he
            simp only [procexedump_render, hai, hcd] at he
            simp at he
          · intro _
            simp only [procexedump_render, hai, hcd]

/-- Witness for C8 (amended): one target with an available address space,
no fd, and an unset dump directory: the run aborts with PluginError. -/
theorem procexedump_render_bad_dir_witness :
    (procexedump_render none none (fun _ => false)
      [{ UniqueProcessId := 7, ImageFileName := "app.exe",
         task_address_space := some { zread := fun _ _ => [], read := fun _ _ => [],
                                      is_valid_address := fun _ => false,
                                      vtop := fun _ => none },
         peb_image_base := 4096 }]).2 = some PyErr.pluginError :=
  (procexedump_render_bad_dir none (fun _ => false)
      [{ UniqueProcessId := 7, ImageFileName := "app.exe",
         task_address_space := some { zread := fun _ _ => [], read := fun _ _ => [],
                                      is_valid_address := fun _ => false,
                                      vtop := fun _ => none },
         peb_image_base := 4096 }]
      (by simp [check_dump_dir])).2
    ⟨{ UniqueProcessId := 7, ImageFileName := "app.exe",
       task_address_space := some { zread := fun _ _ => [], read := fun _ _ => [],
                                    is_valid_address := fun _ => false,
                                    vtop := fun _ => none },
       peb_image_base := 4096 }, by simp, by simp⟩

/-- The output sink PEDump.__init__ installs: either the caller's fd or a
file opened from the given filename. -/
inductive OutSink where
  | fdSink (n : Nat)
  | fileSink (name : String)
deriving DecidableEq

/-- The attributes of a PEDump instance after __init__: out_fd and the
filename attribute are only assigned on the fd branch or the truthy
filename branch (None models an absent attribute). -/
structure PEDumpState where
  address_space : AddrSpace
  image_base : Nat
  out_fd : Option OutSink
  filename_attr : Option String

/-- PEDump.__init__: if a (truthy) fd is given, use it as the sink and
record an FD description; otherwise, if a truthy (nonempty) filename is
given, open that file as the sink; otherwise neither attribute is set. -/
def PEDump_init (address_space : AddrSpace) (image_base : Nat)
    (fd : Option Nat) (filename : Option String) : PEDumpState :=
  match fd with
  | some f =>
      { address_space := address_space, image_base := image_base,
        out_fd := some (OutSink.fdSink f),
        filename_attr := some ("FD <" ++ toString f ++ ">") }
  | none =>
      match filename with
      | some s =>
          if s ≠ "" then
            { address_space := address_space, image_base := image_base,
              out_fd := some (OutSink.fileSink s), filename_attr := some s }
          else
            { address_space := address_space, image_base := image_base,
              out_fd := none, filename_attr := none }
      | none =>
          { address_space := address_space, image_base := image_base,
            out_fd := none, filename_attr := none }

/-- The visible effects of PEDump.render: the Dumping console line, the
reconstruction written to the output sink, and the Done console line. -/
inductive ROut where
  | dumpingLine (filename : String) (image_base : Nat)
  | sinkWrite (snk : OutSink) (ops : List Op)
  | doneLine

/-- PEDump.render: formatting the Dumping line reads self.filename, so a
missing filename attribute raises AttributeError before anything is
written; then WritePEFile reads self.out_fd, raising AttributeError when
that attribute is missing; decode is the external header decoder. -/
def PEDump_render (decode : AddrSpace → Nat → PEImage) (st : PEDumpState) :
    List ROut × Option PyErr :=
  match st.filename_attr with
  | none => ([], some PyErr.attributeError)
  | some fname =>
      match st.out_fd with
      | none => ([ROut.dumpingLine fname st.image_base], some PyErr.attributeError)
      | some snk =>
          ([ROut.dumpingLine fname st.image_base,
            ROut.sinkWrite snk
              (WritePEFile st.address_space (decode st.address_space st.image_base)),
            ROut.doneLine], none)

/-- Counterexample to claim C10 as stated: constructing with a supplied
but empty filename sets no output sink, refuting the biconditional that a
sink exists iff fd or filename was supplied. -/
theorem pedump_init_empty_filename :
    ¬ ((PEDump_init
          { zread := fun _ _ => [], read := fun _ _ => [],
            is_valid_address := fun _ => false, vtop := fun _ => none }
          4096 none (some "")).out_fd.isSome ↔
        ((none : Option Nat).isSome ∨ (some "" : Option String).isSome)) := by
  intro h
  have hfd : (PEDump_init
      { zread := fun _ _ => [], read := fun _ _ => [],
        is_valid_address := fun _ => false, vtop := fun _ => none }
      4096 none (some "")).out_fd.isSome := h.2 (Or.inr rfl)
  simp [PEDump_init] at hfd

/-- Claim C10 (amended): after construction an output sink exists iff a fd
was supplied or a nonempty filename was supplied; when the out_fd
attribute is unset, render fails on the missing attribute and produces no
output at all. -/
theorem pedump_init_out_fd (address_space : AddrSpace) (image_base : Nat)
    (fd : Option Nat) (filename : Option String) :
    ((PEDump_init address_space image_base fd filename).out_fd.isSome ↔
      (fd.isSome ∨ ∃ s, filename = some s ∧ s ≠ ""))
    ∧ (∀ decode, (PEDump_init address_space image_base fd filename).out_fd = none →
        PEDump_render decode (PEDump_init address_space image_base fd filename) =
          ([], some PyErr.attributeError)) := by
  cases fd with
  | some f =>
      constructor
      · simp [PEDump_init]
      · intro decode h
        simp [PEDump_init] at h
  | none =>
      cases filename with
      | none =>
          constructor
          · simp [PEDump_init]
          · intro decode h
            simp [PEDump_init, PEDump_render]
      | some s =>
          by_cases hs : s = ""
          · constructor
            · simp [PEDump_init, hs]
            · intro decode h
              simp [PEDump_init, PEDump_render, hs]
          · constructor
            · simp only [PEDump_init, if_pos hs]
              simp [hs]
            · intro decode h
              simp [PEDump_init, if_pos hs] at h

/-- Witness for C10 (amended): constructed with neither fd nor filename,
render raises AttributeError with no output. -/
theorem pedump_init_out_fd_witness :
    PEDump_render (fun _ _ => { resolvedBase := 0, SizeOfHeaders := 0, Sections := [] })
      (PEDump_init
        { zread := fun _ _ => [], read := fun _ _ => [],
          is_valid_address := fun _ => false, vtop := fun _ => none }
        4096 none none) = ([], some PyErr.attributeError) :=
  (pedump_init_out_fd
    { zread := fun _ _ => [], read := fun _ _ => [],
      is_valid_address := fun _ => false, vtop := fun _ => none }
    4096 none none).2
    (fun _ _ => { resolvedBase := 0, SizeOfHeaders := 0, Sections := [] }) rfl

end Procdump
